import Mathlib

/-!
Shallow embedding of the adaptive question-selection and set-narrowing engine
of the guessing game (`src/utils.ts`, class `PokemonGameEngine`), together
with theorems checking the natural-language specification against it.

The engine's mutable fields (`gameState`, `usedQuestionTypes`,
`askedQuestions`) are modelled as one explicit state record; the `async`
methods perform no internal suspension besides the external data load, so
they are modelled as pure state transformers.  JS `Set`s are modelled as
lists used only through membership; JS machine numbers that hold list
lengths, ids, hectogram weights and decimeter heights are modelled as `Nat`
(they are small non-negative integers in the source, far from any floating
point rounding); the one place the source computes a fractional quantity
(the `count - population/2` split score) is modelled scaled by two so it
stays in `Int`, which preserves every comparison the source makes.
-/

/-- The eleven strategy tags of the union type `Question['type']` in the
source (`typ` stands for the source's `'type'`, a Lean keyword). -/
inductive QType where
  | weight
  | height
  | typ
  | generation
  | legendary
  | mythical
  | baby
  | evolution
  | weakness
  | strength
  | color
deriving DecidableEq, Repr

/-- The string literal of each strategy tag, as it appears in the source's
`Question['type']` union and hence in question keys. -/
def QType.tagName : QType → String
  | .weight => "weight"
  | .height => "height"
  | .typ => "type"
  | .generation => "generation"
  | .legendary => "legendary"
  | .mythical => "mythical"
  | .baby => "baby"
  | .evolution => "evolution"
  | .weakness => "weakness"
  | .strength => "strength"
  | .color => "color"

/-- The `SimplePokemon` record produced by the data loader (`dataLoader.ts`,
`loadSimplePokemon`): the projection of one entity that the engine filters
on. -/
structure SimplePokemon where
  id : Nat
  name : String
  weight : Nat
  height : Nat
  types : List String
  generation : Nat
  isLegendary : Bool
  isMythical : Bool
  isBaby : Bool
  hasEvolution : Bool
  isEvolved : Bool
  color : String
  weaknesses : List String
  strengths : List String
deriving DecidableEq, Repr

instance : Inhabited SimplePokemon :=
  ⟨⟨0, "", 0, 0, [], 0, false, false, false, false, false, "", [], []⟩⟩

/-- The source's `Question` value object: text, strategy tag, and at most one
of the three optional payloads. -/
structure Question where
  text : String
  qtype : QType
  value : Option Nat := none
  stringValue : Option String := none
  booleanValue : Option Bool := none
deriving DecidableEq, Repr

/-- A player response, `'yes' | 'no' | 'unknown'` in the source. -/
inductive Resp where
  | yes
  | no
  | unknown
deriving DecidableEq, Repr

/-- The restricted response type `'yes' | 'no'` accepted by every strategy's
`filterPokemon`. -/
inductive YN where
  | yes
  | no
deriving DecidableEq, Repr

/-- The source's `AnsweredQuestion`: one history entry. -/
structure AnsweredQuestion where
  response : Resp
  question : Question
deriving DecidableEq, Repr

/-- Renders `v` tenths the way JS renders the number `v / 10` (the source
stores weights in hectograms and heights in decimeters, divides by 10 and
interpolates `toString()` of the result, which for a one-decimal value is the
shortest decimal form). -/
def formatTenths (v : Nat) : String :=
  if v % 10 = 0 then toString (v / 10)
  else toString (v / 10) ++ "." ++ toString (v % 10)

/-- Stable insertion into an ascending list: the earlier element stays in
front of later elements with an equal key. -/
def insertAsc (key : SimplePokemon → Nat) (p : SimplePokemon)
    : List SimplePokemon → List SimplePokemon
  | [] => [p]
  | q :: rest => if key q < key p then q :: insertAsc key p rest else p :: q :: rest

/-- Stable ascending sort by `key`.  A stable sort's output is uniquely
determined by the key ordering, so this computes exactly the reordering that
the source's `[...pokemon].sort((a, b) => a.key - b.key)` produces
(JS `Array.sort` is stable since ES2019). -/
def sortAsc (key : SimplePokemon → Nat) (l : List SimplePokemon) : List SimplePokemon :=
  l.foldr (insertAsc key) []

/-- `[...pokemon].sort((a, b) => a.weight - b.weight)`. -/
def sortByWeight (pokemon : List SimplePokemon) : List SimplePokemon :=
  sortAsc (fun p => p.weight) pokemon

/-- `[...pokemon].sort((a, b) => a.height - b.height)`. -/
def sortByHeight (pokemon : List SimplePokemon) : List SimplePokemon :=
  sortAsc (fun p => p.height) pokemon

/-- JS truthiness of the guard `if (!question.stringValue) return pokemon`:
both an absent string and the empty string are falsy. -/
def strValOf (q : Question) : Option String :=
  match q.stringValue with
  | none => none
  | some s => if s = "" then none else some s

/-- Increment the count of key `k` in an insertion-ordered association list:
the model of `count[k] = (count[k] || 0) + 1` on a JS object with
non-numeric string keys, whose `Object.entries` iterates in insertion
order. -/
def bumpCount (l : List (String × Nat)) (k : String) : List (String × Nat) :=
  match l with
  | [] => [(k, 1)]
  | (k', c) :: rest =>
    if k' = k then (k', c + 1) :: rest else (k', c) :: bumpCount rest k

/-- Counts every occurrence of every tag of every entity, in insertion
order: the model of the nested `forEach` loops that fill `typeCount`,
`weaknessCount` and `strengthCount`. -/
def countTags (pokemon : List SimplePokemon) (proj : SimplePokemon → List String)
    : List (String × Nat) :=
  pokemon.foldl (fun acc p => (proj p).foldl bumpCount acc) []

/-- Increment the count of numeric key `k`, keeping keys sorted ascending:
the model of counting on a JS object with integer-like keys, whose
`Object.entries` iterates numeric keys in ascending order regardless of
insertion order. -/
def bumpCountNat (l : List (Nat × Nat)) (k : Nat) : List (Nat × Nat) :=
  match l with
  | [] => [(k, 1)]
  | (k', c) :: rest =>
    if k < k' then (k, 1) :: (k', c) :: rest
    else if k = k' then (k', c + 1) :: rest
    else (k', c) :: bumpCountNat rest k

/-- The `genCount` object of the generation strategy. -/
def genCounts (pokemon : List SimplePokemon) : List (Nat × Nat) :=
  pokemon.foldl (fun acc p => bumpCountNat acc p.generation) []

/-- The best-split selection fold shared by the categorical strategies: keep
the entry whose count is closest to half the population (strictly better
wins; the first entry encountered wins ties); `requirePos` mirrors the extra
`count > 0` conjunct present in the weakness, strength and color strategies.
The source compares `Math.abs(count - pokemon.length / 2)` over JS numbers;
the comparison is modelled scaled by two, `|2 * count - n|`, which preserves
the ordering and stays in `Int`.  `none` models the `bestX === ''` falsy
state that makes the strategy return null. -/
def bestBySplit (entries : List (String × Nat)) (n : Nat) (requirePos : Bool)
    : Option String :=
  (entries.foldl
    (fun (best : Option (String × Nat)) (e : String × Nat) =>
      let diff := Int.natAbs (2 * (e.2 : Int) - (n : Int))
      let ok := !requirePos || decide (0 < e.2)
      match best with
      | none => if ok then some (e.1, diff) else none
      | some (bk, bd) =>
        if diff < bd ∧ ok = true then some (e.1, diff) else some (bk, bd))
    none).map Prod.fst

/-- The weight strategy's `generateQuestion`. -/
def weightGenerate (pokemon : List SimplePokemon) : Option Question :=
  if pokemon.length < 2 then none
  else
    let sorted := sortByWeight pokemon
    if pokemon.length ≤ 3 then
      let lightestWeight := (sorted.getD 0 default).weight
      let yesCount := (pokemon.filter (fun p => lightestWeight < p.weight)).length
      let noCount := (pokemon.filter (fun p => p.weight ≤ lightestWeight)).length
      if 0 < yesCount ∧ 0 < noCount then
        some { text := "Is your Pokémon heavier than " ++ formatTenths lightestWeight ++ " kg?",
               qtype := .weight, value := some lightestWeight }
      else if 3 ≤ pokemon.length then
        let secondWeight := (sorted.getD 1 default).weight
        let yesCount2 := (pokemon.filter (fun p => secondWeight < p.weight)).length
        let noCount2 := (pokemon.filter (fun p => p.weight ≤ secondWeight)).length
        if 0 < yesCount2 ∧ 0 < noCount2 then
          some { text := "Is your Pokémon heavier than " ++ formatTenths secondWeight ++ " kg?",
                 qtype := .weight, value := some secondWeight }
        else none
      else none
    else
      let medianIndex := sorted.length / 2
      let medianWeight := (sorted.getD medianIndex default).weight
      some { text := "Is your Pokémon heavier than " ++ formatTenths medianWeight ++ " kg?",
             qtype := .weight, value := some medianWeight }

/-- The weight strategy's `filterPokemon` (the guard is `question.value ===
undefined`, a strict check, so a zero threshold still filters). -/
def weightFilter (pokemon : List SimplePokemon) (question : Question) (response : YN)
    : List SimplePokemon :=
  match question.value with
  | none => pokemon
  | some threshold =>
    match response with
    | .yes => pokemon.filter (fun p => threshold < p.weight)
    | .no => pokemon.filter (fun p => p.weight ≤ threshold)

/-- The height strategy's `generateQuestion`. -/
def heightGenerate (pokemon : List SimplePokemon) : Option Question :=
  if pokemon.length < 2 then none
  else
    let sorted := sortByHeight pokemon
    if pokemon.length ≤ 3 then
      let shortestHeight := (sorted.getD 0 default).height
      let yesCount := (pokemon.filter (fun p => shortestHeight < p.height)).length
      let noCount := (pokemon.filter (fun p => p.height ≤ shortestHeight)).length
      if 0 < yesCount ∧ 0 < noCount then
        some { text := "Is your Pokémon taller than " ++ formatTenths shortestHeight ++ " meters?",
               qtype := .height, value := some shortestHeight }
      else if 3 ≤ pokemon.length then
        let secondHeight := (sorted.getD 1 default).height
        let yesCount2 := (pokemon.filter (fun p => secondHeight < p.height)).length
        let noCount2 := (pokemon.filter (fun p => p.height ≤ secondHeight)).length
        if 0 < yesCount2 ∧ 0 < noCount2 then
          some { text := "Is your Pokémon taller than " ++ formatTenths secondHeight ++ " meters?",
                 qtype := .height, value := some secondHeight }
        else none
      else none
    else
      let medianIndex := sorted.length / 2
      let medianHeight := (sorted.getD medianIndex default).height
      some { text := "Is your Pokémon taller than " ++ formatTenths medianHeight ++ " meters?",
             qtype := .height, value := some medianHeight }

/-- The height strategy's `filterPokemon`. -/
def heightFilter (pokemon : List SimplePokemon) (question : Question) (response : YN)
    : List SimplePokemon :=
  match question.value with
  | none => pokemon
  | some threshold =>
    match response with
    | .yes => pokemon.filter (fun p => threshold < p.height)
    | .no => pokemon.filter (fun p => p.height ≤ threshold)

/-- The type strategy's `generateQuestion`.  The final guard
`if (!bestType) return null` is a JS truthiness check, so the never-updated
initial empty string and an empty-string tag alike produce null. -/
def typeGenerate (pokemon : List SimplePokemon) : Option Question :=
  let typeCount := countTags pokemon (fun p => p.types)
  match bestBySplit typeCount pokemon.length false with
  | none => none
  | some bestType =>
    if bestType = "" then none
    else
      some { text := "Is your Pokémon a " ++ bestType.capitalize ++ " type?",
             qtype := .typ, stringValue := some bestType }

/-- The type strategy's `filterPokemon`. -/
def typeFilter (pokemon : List SimplePokemon) (question : Question) (response : YN)
    : List SimplePokemon :=
  match strValOf question with
  | none => pokemon
  | some targetType =>
    match response with
    | .yes => pokemon.filter (fun p => p.types.contains targetType)
    | .no => pokemon.filter (fun p => !p.types.contains targetType)

/-- The `genNames` lookup array of the generation strategy. -/
def genNames : List String :=
  ["", "Kanto", "Johto", "Hoenn", "Sinnoh", "Unova", "Kalos", "Alola", "Galar", "Paldea"]

/-- The generation strategy's `generateQuestion`.  `bestGen` starts at 1 and
the source has no null return: a question is produced for every population.
The name lookup `genNames[bestGen] || fallback` uses the array entry exactly
for generations 1 through 9 (index 0 is the falsy empty string, larger
indices are undefined). -/
def generationGenerate (pokemon : List SimplePokemon) : Option Question :=
  let n := pokemon.length
  let best := (genCounts pokemon).foldl
    (fun (acc : Nat × Option Nat) (e : Nat × Nat) =>
      let diff := Int.natAbs (2 * (e.2 : Int) - (n : Int))
      match acc.2 with
      | none => (e.1, some diff)
      | some bd => if diff < bd then (e.1, some diff) else acc)
    (1, none)
  let bestGen := best.1
  let genName :=
    if 1 ≤ bestGen ∧ bestGen ≤ 9 then genNames.getD bestGen ""
    else "Generation " ++ toString bestGen
  some { text := "Is your Pokémon from " ++ genName ++ "?",
         qtype := .generation, value := some bestGen }

/-- The generation strategy's `filterPokemon`. -/
def generationFilter (pokemon : List SimplePokemon) (question : Question) (response : YN)
    : List SimplePokemon :=
  match question.value with
  | none => pokemon
  | some targetGen =>
    match response with
    | .yes => pokemon.filter (fun p => p.generation == targetGen)
    | .no => pokemon.filter (fun p => p.generation != targetGen)

/-- The legendary strategy's `generateQuestion`. -/
def legendaryGenerate (pokemon : List SimplePokemon) : Option Question :=
  let legendaryCount := (pokemon.filter (fun p => p.isLegendary)).length
  let nonLegendaryCount := pokemon.length - legendaryCount
  if legendaryCount = 0 ∨ nonLegendaryCount = 0 then none
  else
    some { text := "Is your Pokémon a legendary Pokémon?",
           qtype := .legendary, booleanValue := some true }

/-- The legendary strategy's `filterPokemon` (ignores the question). -/
def legendaryFilter (pokemon : List SimplePokemon) (_question : Question) (response : YN)
    : List SimplePokemon :=
  match response with
  | .yes => pokemon.filter (fun p => p.isLegendary)
  | .no => pokemon.filter (fun p => !p.isLegendary)

/-- The mythical strategy's `generateQuestion`. -/
def mythicalGenerate (pokemon : List SimplePokemon) : Option Question :=
  let mythicalCount := (pokemon.filter (fun p => p.isMythical)).length
  let nonMythicalCount := pokemon.length - mythicalCount
  if mythicalCount = 0 ∨ nonMythicalCount = 0 then none
  else
    some { text := "Is your Pokémon a mythical Pokémon?",
           qtype := .mythical, booleanValue := some true }

/-- The mythical strategy's `filterPokemon`. -/
def mythicalFilter (pokemon : List SimplePokemon) (_question : Question) (response : YN)
    : List SimplePokemon :=
  match response with
  | .yes => pokemon.filter (fun p => p.isMythical)
  | .no => pokemon.filter (fun p => !p.isMythical)

/-- The baby strategy's `generateQuestion`. -/
def babyGenerate (pokemon : List SimplePokemon) : Option Question :=
  let babyCount := (pokemon.filter (fun p => p.isBaby)).length
  let nonBabyCount := pokemon.length - babyCount
  if babyCount = 0 ∨ nonBabyCount = 0 then none
  else
    some { text := "Is your Pokémon a baby Pokémon?",
           qtype := .baby, booleanValue := some true }

/-- The baby strategy's `filterPokemon`. -/
def babyFilter (pokemon : List SimplePokemon) (_question : Question) (response : YN)
    : List SimplePokemon :=
  match response with
  | .yes => pokemon.filter (fun p => p.isBaby)
  | .no => pokemon.filter (fun p => !p.isBaby)

/-- The evolution strategy's `generateQuestion`: chooses between the
"has evolved from" and "can evolve into" questions by whichever splits more
evenly, and always returns one of the two. -/
def evolutionGenerate (pokemon : List SimplePokemon) : Option Question :=
  let evolvedCount := (pokemon.filter (fun p => p.isEvolved)).length
  let notEvolvedCount := pokemon.length - evolvedCount
  let hasEvoCount := (pokemon.filter (fun p => p.hasEvolution)).length
  let notHasEvoCount := (pokemon.filter (fun p => !p.hasEvolution)).length
  if Int.natAbs ((evolvedCount : Int) - (notEvolvedCount : Int)) <
      Int.natAbs ((hasEvoCount : Int) - (notHasEvoCount : Int)) then
    some { text := "Has your Pokémon evolved from another Pokémon?",
           qtype := .evolution, stringValue := some "isEvolved" }
  else
    some { text := "Can your Pokémon evolve into another Pokémon?",
           qtype := .evolution, stringValue := some "hasEvolution" }

/-- The evolution strategy's `filterPokemon`, dispatching on which sub-case
was generated. -/
def evolutionFilter (pokemon : List SimplePokemon) (question : Question) (response : YN)
    : List SimplePokemon :=
  match strValOf question with
  | none => pokemon
  | some sv =>
    if sv = "isEvolved" then
      match response with
      | .yes => pokemon.filter (fun p => p.isEvolved)
      | .no => pokemon.filter (fun p => !p.isEvolved)
    else if sv = "hasEvolution" then
      match response with
      | .yes => pokemon.filter (fun p => p.hasEvolution)
      | .no => pokemon.filter (fun p => !p.hasEvolution)
    else pokemon

/-- The weakness strategy's `generateQuestion`. -/
def weaknessGenerate (pokemon : List SimplePokemon) : Option Question :=
  let weaknessCount := countTags pokemon (fun p => p.weaknesses)
  match bestBySplit weaknessCount pokemon.length true with
  | none => none
  | some bestWeakness =>
    if bestWeakness = "" then none
    else
      some { text := "Is your Pokémon weak to " ++ bestWeakness.capitalize ++ " attacks?",
             qtype := .weakness, stringValue := some bestWeakness }

/-- The weakness strategy's `filterPokemon`. -/
def weaknessFilter (pokemon : List SimplePokemon) (question : Question) (response : YN)
    : List SimplePokemon :=
  match strValOf question with
  | none => pokemon
  | some targetWeakness =>
    match response with
    | .yes => pokemon.filter (fun p => p.weaknesses.contains targetWeakness)
    | .no => pokemon.filter (fun p => !p.weaknesses.contains targetWeakness)

/-- The strength strategy's `generateQuestion`. -/
def strengthGenerate (pokemon : List SimplePokemon) : Option Question :=
  let strengthCount := countTags pokemon (fun p => p.strengths)
  match bestBySplit strengthCount pokemon.length true with
  | none => none
  | some bestStrength =>
    if bestStrength = "" then none
    else
      some { text := "Is your Pokémon strong against " ++ bestStrength.capitalize ++ " types?",
             qtype := .strength, stringValue := some bestStrength }

/-- The strength strategy's `filterPokemon`. -/
def strengthFilter (pokemon : List SimplePokemon) (question : Question) (response : YN)
    : List SimplePokemon :=
  match strValOf question with
  | none => pokemon
  | some targetStrength =>
    match response with
    | .yes => pokemon.filter (fun p => p.strengths.contains targetStrength)
    | .no => pokemon.filter (fun p => !p.strengths.contains targetStrength)

/-- The color strategy's `generateQuestion` (entities whose color is the
sentinel `'unknown'` are not counted). -/
def colorGenerate (pokemon : List SimplePokemon) : Option Question :=
  let colorCount := pokemon.foldl
    (fun acc p => if p.color = "unknown" then acc else bumpCount acc p.color) []
  match bestBySplit colorCount pokemon.length true with
  | none => none
  | some bestColor =>
    if bestColor = "" then none
    else
      some { text := "Is your Pokémon primarily " ++ bestColor ++ "?",
             qtype := .color, stringValue := some bestColor }

/-- The color strategy's `filterPokemon`. -/
def colorFilter (pokemon : List SimplePokemon) (question : Question) (response : YN)
    : List SimplePokemon :=
  match strValOf question with
  | none => pokemon
  | some targetColor =>
    match response with
    | .yes => pokemon.filter (fun p => p.color == targetColor)
    | .no => pokemon.filter (fun p => p.color != targetColor)

/-- The `QuestionStrategy` interface of the source. -/
structure QuestionStrategy where
  stype : QType
  generateQuestion : List SimplePokemon → Option Question
  filterPokemon : List SimplePokemon → Question → YN → List SimplePokemon

def weightStrategy : QuestionStrategy := ⟨.weight, weightGenerate, weightFilter⟩

def heightStrategy : QuestionStrategy := ⟨.height, heightGenerate, heightFilter⟩

def typeStrategy : QuestionStrategy := ⟨.typ, typeGenerate, typeFilter⟩

def generationStrategy : QuestionStrategy := ⟨.generation, generationGenerate, generationFilter⟩

def legendaryStrategy : QuestionStrategy := ⟨.legendary, legendaryGenerate, legendaryFilter⟩

def mythicalStrategy : QuestionStrategy := ⟨.mythical, mythicalGenerate, mythicalFilter⟩

def babyStrategy : QuestionStrategy := ⟨.baby, babyGenerate, babyFilter⟩

def evolutionStrategy : QuestionStrategy := ⟨.evolution, evolutionGenerate, evolutionFilter⟩

def weaknessStrategy : QuestionStrategy := ⟨.weakness, weaknessGenerate, weaknessFilter⟩

def strengthStrategy : QuestionStrategy := ⟨.strength, strengthGenerate, strengthFilter⟩

def colorStrategy : QuestionStrategy := ⟨.color, colorGenerate, colorFilter⟩

/-- The strategy registry in source order (`getQuestionStrategies`). -/
def getQuestionStrategies : List QuestionStrategy :=
  [weightStrategy, heightStrategy, typeStrategy, generationStrategy,
   legendaryStrategy, mythicalStrategy, babyStrategy, evolutionStrategy,
   weaknessStrategy, strengthStrategy, colorStrategy]

/-- The duplicate-detection key of a question, the source's
`` `${question.type}:${question.text}` ``. -/
def questionKey (q : Question) : String :=
  q.qtype.tagName ++ ":" ++ q.text

/-- `Set.add`: the JS sets are used only through membership, so the model
appends the element when absent. -/
def insertKey (l : List String) (k : String) : List String :=
  if k ∈ l then l else l ++ [k]

/-- `Set.add` for strategy types. -/
def insertType (l : List QType) (t : QType) : List QType :=
  if t ∈ l then l else l ++ [t]

/-- The whole mutable state of a `PokemonGameEngine`: its `gameState` record
plus the two tracking sets.  `guessedPokemon` is modelled by the
`SimplePokemon` projection of the guessed entity (the source stores the full
record fetched by `getPokemonById(guessed.id)`, or an equivalent fallback
built from the same projection). -/
structure EngineState where
  currentQuestion : Option Question
  answers : List AnsweredQuestion
  possiblePokemon : List SimplePokemon
  gameComplete : Bool
  guessedPokemon : Option SimplePokemon
  usedQuestionTypes : List QType
  askedQuestions : List String
deriving Repr

/-- `completeGame`: raise the completion flag, clear the pending question,
and guess the first remaining candidate when one exists. -/
def completeGame (e : EngineState) : EngineState :=
  { e with
    gameComplete := true
    currentQuestion := none
    guessedPokemon :=
      match e.possiblePokemon with
      | [] => e.guessedPokemon
      | p :: _ => some p }

/-- One strategy's turn inside the inner `for (const strategy of
strategiesToUse)` loop of `generateNextQuestion`: skip a null question, skip
an already-asked key, skip a degenerate split, otherwise keep the question
if its split difference strictly beats the best so far. -/
def scanStrategy (asked : List String) (pop : List SimplePokemon)
    (best : Option (Question × Nat)) (s : QuestionStrategy)
    : Option (Question × Nat) :=
  match s.generateQuestion pop with
  | none => best
  | some question =>
    if questionKey question ∈ asked then best
    else
      let yesFiltered := s.filterPokemon pop question .yes
      let noFiltered := s.filterPokemon pop question .no
      let splitDiff := Int.natAbs ((yesFiltered.length : Int) - (noFiltered.length : Int))
      if yesFiltered.length = 0 ∨ noFiltered.length = 0 then best
      else
        match best with
        | none => some (question, splitDiff)
        | some (bq, bd) =>
          if splitDiff < bd then some (question, splitDiff) else some (bq, bd)

/-- The inner loop over the strategies of one attempt. -/
def scanStrategies (asked : List String) (pop : List SimplePokemon)
    (best : Option (Question × Nat)) (ss : List QuestionStrategy)
    : Option (Question × Nat) :=
  ss.foldl (scanStrategy asked pop) best

/-- The bounded attempt loop of `generateNextQuestion` (`maxAttempts = 10`):
each attempt scans the strategies whose type is not yet used (or all of them
when none remain), breaks as soon as a best question exists, and clears the
used-type tracking once, after the first failed attempt.  Returns the best
question found together with the final used-type tracking. -/
def selectLoop (asked : List String) (pop : List SimplePokemon)
    : Nat → Nat → List QType → Option (Question × Nat)
    → Option (Question × Nat) × List QType
  | 0, _, used, best => (best, used)
  | fuel + 1, attempt, used, best =>
    let availableStrategies :=
      getQuestionStrategies.filter (fun s => !used.contains s.stype)
    let strategiesToUse :=
      if availableStrategies.isEmpty then getQuestionStrategies
      else availableStrategies
    let best' := scanStrategies asked pop best strategiesToUse
    match best' with
    | some bq => (some bq, used)
    | none =>
      let used' := if attempt = 0 then [] else used
      selectLoop asked pop fuel (attempt + 1) used' none

/-- `generateNextQuestion`: complete at once when at most one candidate
remains or the 20-question budget is reached; otherwise run the selection
loop and either install the selected question (recording its type and key)
or concede and complete the game. -/
def generateNextQuestion (e : EngineState) : EngineState :=
  if e.possiblePokemon.length ≤ 1 then completeGame e
  else if 20 ≤ e.answers.length then completeGame e
  else
    match selectLoop e.askedQuestions e.possiblePokemon 10 0 e.usedQuestionTypes none with
    | (some (bestQuestion, _), used) =>
      { e with
        currentQuestion := some bestQuestion
        usedQuestionTypes := insertType used bestQuestion.qtype
        askedQuestions := insertKey e.askedQuestions (questionKey bestQuestion) }
    | (none, used) => completeGame { e with usedQuestionTypes := used }

/-- `strategies.find(s => s.type === currentQuestion.type)`. -/
def findStrategyByType (t : QType) : Option QuestionStrategy :=
  getQuestionStrategies.find? (fun s => s.stype == t)

/-- `answerQuestion`: a no-op unless a question is pending and the game is
not complete; otherwise append the answer to the history, filter the
population through the matching strategy for a yes/no response (an unknown
response filters nothing), and generate the next question. -/
def answerQuestion (e : EngineState) (response : Resp) : EngineState :=
  match e.currentQuestion, e.gameComplete with
  | none, _ => e
  | some _, true => e
  | some q, false =>
    let e1 := { e with answers := e.answers ++ [⟨response, q⟩] }
    let e2 :=
      match response with
      | .unknown => e1
      | .yes =>
        match findStrategyByType q.qtype with
        | some s => { e1 with possiblePokemon := s.filterPokemon e1.possiblePokemon q .yes }
        | none => e1
      | .no =>
        match findStrategyByType q.qtype with
        | some s => { e1 with possiblePokemon := s.filterPokemon e1.possiblePokemon q .no }
        | none => e1
    generateNextQuestion e2

/-- `startNewGame` on an initialized engine whose full roster is
`allPokemon`: reset the game state and the two tracking sets, then generate
the first question. -/
def startNewGame (allPokemon : List SimplePokemon) : EngineState :=
  generateNextQuestion
    { currentQuestion := none
      answers := []
      possiblePokemon := allPokemon
      gameComplete := false
      guessedPokemon := none
      usedQuestionTypes := []
      askedQuestions := [] }

/-- The engine states reachable from `startNewGame` on roster `allPokemon`
by any sequence of `answerQuestion` calls. -/
inductive Reachable (allPokemon : List SimplePokemon) : EngineState → Prop where
  | start : Reachable allPokemon (startNewGame allPokemon)
  | step (e : EngineState) (r : Resp) :
      Reachable allPokemon e → Reachable allPokemon (answerQuestion e r)

/-- The questions presented to the player so far, in order: every answered
question was the current question when it was answered, and the pending
question (when there is one) is currently presented. -/
def presentedQuestions (e : EngineState) : List Question :=
  e.answers.map (fun a => a.question) ++
    (match e.currentQuestion with
     | some q => [q]
     | none => [])

/-- What the selection loop guarantees for the question it returns: the
question was generated by a registered strategy against the current
population, its key has not been asked yet, and both sides of its split are
non-empty. -/
def SelProp (pop : List SimplePokemon) (asked : List String) (q : Question) : Prop :=
  questionKey q ∉ asked ∧
  ∃ s ∈ getQuestionStrategies,
    s.generateQuestion pop = some q ∧
    (s.filterPokemon pop q .yes).length ≠ 0 ∧
    (s.filterPokemon pop q .no).length ≠ 0

/-- A question is non-degenerate for a population when the filter of the
registered strategy of the question's type keeps a non-empty population for a
yes answer and also for a no answer. -/
def NonDegen (pop : List SimplePokemon) (q : Question) : Prop :=
  ∃ s, findStrategyByType q.qtype = some s ∧
    s.filterPokemon pop q .yes ≠ [] ∧ s.filterPokemon pop q .no ≠ []

/-- The duplicate-detection keys of the already-answered questions, in
order. -/
def answersKeys (e : EngineState) : List String :=
  e.answers.map (fun a => questionKey a.question)

/-- The duplicate-detection keys of all presented questions, in order. -/
def presentedKeys (e : EngineState) : List String :=
  (presentedQuestions e).map questionKey

/-- The inductive invariant of reachable engine states: the history never
exceeds the 20-question budget; a complete game has no pending question and
guesses the head of the remaining population; an incomplete game has a
pending non-degenerate question, at least two candidates, and room in the
budget; and the keys of all presented questions are pairwise distinct and
recorded in the asked-question tracking. -/
def EngineInv (e : EngineState) : Prop :=
  e.answers.length ≤ 20 ∧
  (e.gameComplete = true →
    e.currentQuestion = none ∧ e.guessedPokemon = e.possiblePokemon.head?) ∧
  (e.gameComplete = false →
    e.guessedPokemon = none ∧
    ∃ q, e.currentQuestion = some q ∧ e.answers.length < 20 ∧
      1 < e.possiblePokemon.length ∧ NonDegen e.possiblePokemon q) ∧
  (presentedKeys e).Nodup ∧
  (∀ k ∈ presentedKeys e, k ∈ e.askedQuestions)

/-! ### Concrete fixtures

Small concrete entities used to instantiate the theorems below on closed
inputs. -/

def wpA : SimplePokemon :=
  { id := 1, name := "a", weight := 10, height := 5, types := ["fire"],
    generation := 1, isLegendary := false, isMythical := false, isBaby := false,
    hasEvolution := true, isEvolved := false, color := "red",
    weaknesses := ["water"], strengths := ["grass"] }

def wpB : SimplePokemon :=
  { id := 2, name := "b", weight := 90, height := 15, types := ["water"],
    generation := 1, isLegendary := false, isMythical := false, isBaby := false,
    hasEvolution := false, isEvolved := true, color := "blue",
    weaknesses := ["grass"], strengths := ["fire"] }

def wpC : SimplePokemon :=
  { id := 3, name := "c", weight := 30, height := 8, types := ["grass"],
    generation := 2, isLegendary := false, isMythical := false, isBaby := false,
    hasEvolution := true, isEvolved := true, color := "green",
    weaknesses := ["fire"], strengths := ["water"] }

def wpD : SimplePokemon :=
  { id := 4, name := "d", weight := 70, height := 12, types := ["rock"],
    generation := 3, isLegendary := true, isMythical := false, isBaby := false,
    hasEvolution := false, isEvolved := false, color := "gray",
    weaknesses := ["water"], strengths := ["fire"] }

/-- The first question the engine presents on the roster `[wpA, wpB]`: the
weight strategy wins with threshold 10 hectograms. -/
def qW : Question :=
  { text := "Is your Pokémon heavier than 1 kg?", qtype := .weight, value := some 10 }

/-- A completed game state with nothing pending. -/
def doneState : EngineState :=
  { currentQuestion := none, answers := [], possiblePokemon := [],
    gameComplete := true, guessedPokemon := none,
    usedQuestionTypes := [], askedQuestions := [] }

/-! ### The snapshot object graph of `getGameState`

`getGameState` returns `{ ...this.gameState }`, a shallow copy: a fresh
top-level record whose collection-valued fields still reference the same
array objects as the engine's own `gameState`.  To reason about that
aliasing, the history and population arrays are modelled by explicit
references (addresses) into heaps mapping addresses to list values, and the
spread by a record copy that copies the references. -/

/-- The `gameState` record with its two array-valued fields held by
reference. -/
structure GameStateRefs where
  currentQuestion : Option Question
  answers : Nat
  possiblePokemon : Nat
  gameComplete : Bool
  guessedPokemon : Option SimplePokemon
deriving DecidableEq, Repr

/-- `getGameState`, the source's `return { ...this.gameState }`: a new
top-level record carrying the same field values, including the same array
references. -/
def getGameState (g : GameStateRefs) : GameStateRefs :=
  { currentQuestion := g.currentQuestion
    answers := g.answers
    possiblePokemon := g.possiblePokemon
    gameComplete := g.gameComplete
    guessedPokemon := g.guessedPokemon }

/-- In-place mutation of the array stored at reference `r`, e.g. a `push`
performed through a snapshot. -/
def writeHeap {α : Type} (h : Nat → α) (r : Nat) (v : α) : Nat → α :=
  fun r2 => if r2 = r then v else h r2

/-- A concrete engine `gameState` whose history array lives at address 0. -/
def g0 : GameStateRefs :=
  { currentQuestion := none, answers := 0, possiblePokemon := 1,
    gameComplete := false, guessedPokemon := none }

/-- A concrete heap of history arrays: every address holds the empty
history. -/
def h0 : Nat → List AnsweredQuestion := fun _ => []

/-- A history entry to push through a snapshot. -/
def aq0 : AnsweredQuestion :=
  { response := .yes, question := { text := "q", qtype := .legendary } }

/-! ### Per-strategy facts

Every strategy stamps its own tag on the questions it generates, and every
strategy's filter returns a sublist-length result. -/

lemma weightGenerate_qtype (pop : List SimplePokemon) (q : Question)
    (h : weightGenerate pop = some q) : q.qtype = .weight := by
  unfold weightGenerate at h
  dsimp only at h
  repeat' split at h
  all_goals first
  | exact Option.noConfusion h
  | (injection h with h2; subst h2; rfl)

lemma heightGenerate_qtype (pop : List SimplePokemon) (q : Question)
    (h : heightGenerate pop = some q) : q.qtype = .height := by
  unfold heightGenerate at h
  dsimp only at h
  repeat' split at h
  all_goals first
  | exact Option.noConfusion h
  | (injection h with h2; subst h2; rfl)

lemma typeGenerate_qtype (pop : List SimplePokemon) (q : Question)
    (h : typeGenerate pop = some q) : q.qtype = .typ := by
  unfold typeGenerate at h
  dsimp only at h
  repeat' split at h
  all_goals first
  | exact Option.noConfusion h
  | (injection h with h2; subst h2; rfl)

lemma generationGenerate_qtype (pop : List SimplePokemon) (q : Question)
    (h : generationGenerate pop = some q) : q.qtype = .generation := by
  unfold generationGenerate at h
  dsimp only at h
  repeat' split at h
  all_goals first
  | exact Option.noConfusion h
  | (injection h with h2; subst h2; rfl)

lemma legendaryGenerate_qtype (pop : List SimplePokemon) (q : Question)
    (h : legendaryGenerate pop = some q) : q.qtype = .legendary := by
  unfold legendaryGenerate at h
  dsimp only at h
  repeat' split at h
  all_goals first
  | exact Option.noConfusion h
  | (injection h with h2; subst h2; rfl)

lemma mythicalGenerate_qtype (pop : List SimplePokemon) (q : Question)
    (h : mythicalGenerate pop = some q) : q.qtype = .mythical := by
  unfold mythicalGenerate at h
  dsimp only at h
  repeat' split at h
  all_goals first
  | exact Option.noConfusion h
  | (injection h with h2; subst h2; rfl)

lemma babyGenerate_qtype (pop : List SimplePokemon) (q : Question)
    (h : babyGenerate pop = some q) : q.qtype = .baby := by
  unfold babyGenerate at h
  dsimp only at h
  repeat' split at h
  all_goals first
  | exact Option.noConfusion h
  | (injection h with h2; subst h2; rfl)

lemma evolutionGenerate_qtype (pop : List SimplePokemon) (q : Question)
    (h : evolutionGenerate pop = some q) : q.qtype = .evolution := by
  unfold evolutionGenerate at h
  dsimp only at h
  repeat' split at h
  all_goals first
  | exact Option.noConfusion h
  | (injection h with h2; subst h2; rfl)

lemma weaknessGenerate_qtype (pop : List SimplePokemon) (q : Question)
    (h : weaknessGenerate pop = some q) : q.qtype = .weakness := by
  unfold weaknessGenerate at h
  dsimp only at h
  repeat' split at h
  all_goals first
  | exact Option.noConfusion h
  | (injection h with h2; subst h2; rfl)

lemma strengthGenerate_qtype (pop : List SimplePokemon) (q : Question)
    (h : strengthGenerate pop = some q) : q.qtype = .strength := by
  unfold strengthGenerate at h
  dsimp only at h
  repeat' split at h
  all_goals first
  | exact Option.noConfusion h
  | (injection h with h2; subst h2; rfl)

lemma colorGenerate_qtype (pop : List SimplePokemon) (q : Question)
    (h : colorGenerate pop = some q) : q.qtype = .color := by
  unfold colorGenerate at h
  dsimp only at h
  repeat' split at h
  all_goals first
  | exact Option.noConfusion h
  | (injection h with h2; subst h2; rfl)

lemma weightFilter_length_le (pop : List SimplePokemon) (q : Question) (r : YN) :
    (weightFilter pop q r).length ≤ pop.length := by
  unfold weightFilter
  repeat' split
  all_goals first
  | exact Nat.le_refl _
  | exact List.length_filter_le _ _

lemma heightFilter_length_le (pop : List SimplePokemon) (q : Question) (r : YN) :
    (heightFilter pop q r).length ≤ pop.length := by
  unfold heightFilter
  repeat' split
  all_goals first
  | exact Nat.le_refl _
  | exact List.length_filter_le _ _

lemma typeFilter_length_le (pop : List SimplePokemon) (q : Question) (r : YN) :
    (typeFilter pop q r).length ≤ pop.length := by
  unfold typeFilter
  repeat' split
  all_goals first
  | exact Nat.le_refl _
  | exact List.length_filter_le _ _

lemma generationFilter_length_le (pop : List SimplePokemon) (q : Question) (r : YN) :
    (generationFilter pop q r).length ≤ pop.length := by
  unfold generationFilter
  repeat' split
  all_goals first
  | exact Nat.le_refl _
  | exact List.length_filter_le _ _

lemma legendaryFilter_length_le (pop : List SimplePokemon) (q : Question) (r : YN) :
    (legendaryFilter pop q r).length ≤ pop.length := by
  unfold legendaryFilter
  repeat' split
  all_goals first
  | exact Nat.le_refl _
  | exact List.length_filter_le _ _

lemma mythicalFilter_length_le (pop : List SimplePokemon) (q : Question) (r : YN) :
    (mythicalFilter pop q r).length ≤ pop.length := by
  unfold mythicalFilter
  repeat' split
  all_goals first
  | exact Nat.le_refl _
  | exact List.length_filter_le _ _

lemma babyFilter_length_le (pop : List SimplePokemon) (q : Question) (r : YN) :
    (babyFilter pop q r).length ≤ pop.length := by
  unfold babyFilter
  repeat' split
  all_goals first
  | exact Nat.le_refl _
  | exact List.length_filter_le _ _

lemma evolutionFilter_length_le (pop : List SimplePokemon) (q : Question) (r : YN) :
    (evolutionFilter pop q r).length ≤ pop.length := by
  unfold evolutionFilter
  repeat' split
  all_goals first
  | exact Nat.le_refl _
  | exact List.length_filter_le _ _

lemma weaknessFilter_length_le (pop : List SimplePokemon) (q : Question) (r : YN) :
    (weaknessFilter pop q r).length ≤ pop.length := by
  unfold weaknessFilter
  repeat' split
  all_goals first
  | exact Nat.le_refl _
  | exact List.length_filter_le _ _

lemma strengthFilter_length_le (pop : List SimplePokemon) (q : Question) (r : YN) :
    (strengthFilter pop q r).length ≤ pop.length := by
  unfold strengthFilter
  repeat' split
  all_goals first
  | exact Nat.le_refl _
  | exact List.length_filter_le _ _

lemma colorFilter_length_le (pop : List SimplePokemon) (q : Question) (r : YN) :
    (colorFilter pop q r).length ≤ pop.length := by
  unfold colorFilter
  repeat' split
  all_goals first
  | exact Nat.le_refl _
  | exact List.length_filter_le _ _

/-- Every registered strategy tags its generated questions with its own
strategy type. -/
lemma registry_generate_qtype (s : QuestionStrategy) (hs : s ∈ getQuestionStrategies)
    (pop : List SimplePokemon) (q : Question) (h : s.generateQuestion pop = some q) :
    q.qtype = s.stype := by
  simp only [getQuestionStrategies, List.mem_cons, List.mem_singleton, List.not_mem_nil,
    or_false] at hs
  rcases hs with rfl | rfl | rfl | rfl | rfl | rfl | rfl | rfl | rfl | rfl | rfl
  · exact weightGenerate_qtype pop q h
  · exact heightGenerate_qtype pop q h
  · exact typeGenerate_qtype pop q h
  · exact generationGenerate_qtype pop q h
  · exact legendaryGenerate_qtype pop q h
  · exact mythicalGenerate_qtype pop q h
  · exact babyGenerate_qtype pop q h
  · exact evolutionGenerate_qtype pop q h
  · exact weaknessGenerate_qtype pop q h
  · exact strengthGenerate_qtype pop q h
  · exact colorGenerate_qtype pop q h

/-- Every registered strategy's filter never grows the population. -/
lemma registry_filter_length_le (s : QuestionStrategy) (hs : s ∈ getQuestionStrategies)
    (pop : List SimplePokemon) (q : Question) (r : YN) :
    (s.filterPokemon pop q r).length ≤ pop.length := by
  simp only [getQuestionStrategies, List.mem_cons, List.mem_singleton, List.not_mem_nil,
    or_false] at hs
  rcases hs with rfl | rfl | rfl | rfl | rfl | rfl | rfl | rfl | rfl | rfl | rfl
  · exact weightFilter_length_le pop q r
  · exact heightFilter_length_le pop q r
  · exact typeFilter_length_le pop q r
  · exact generationFilter_length_le pop q r
  · exact legendaryFilter_length_le pop q r
  · exact mythicalFilter_length_le pop q r
  · exact babyFilter_length_le pop q r
  · exact evolutionFilter_length_le pop q r
  · exact weaknessFilter_length_le pop q r
  · exact strengthFilter_length_le pop q r
  · exact colorFilter_length_le pop q r

/-- Looking up a registered strategy by its own type finds it: the registry
holds exactly one strategy per type. -/
lemma findStrategyByType_self (s : QuestionStrategy) (hs : s ∈ getQuestionStrategies) :
    findStrategyByType s.stype = some s := by
  simp only [getQuestionStrategies, List.mem_cons, List.mem_singleton, List.not_mem_nil,
    or_false] at hs
  rcases hs with rfl | rfl | rfl | rfl | rfl | rfl | rfl | rfl | rfl | rfl | rfl <;> rfl

/-! ### Correctness of the selection loop

Any question the selection loop returns was generated by some registered
strategy against the current population, has not been asked before, and
splits the population with both sides non-empty. -/

lemma scanStrategy_good (asked : List String) (pop : List SimplePokemon)
    (best : Option (Question × Nat)) (s : QuestionStrategy)
    (hs : s ∈ getQuestionStrategies)
    (hb : ∀ q d, best = some (q, d) → SelProp pop asked q) :
    ∀ q d, scanStrategy asked pop best s = some (q, d) → SelProp pop asked q := by
  intro q d h
  unfold scanStrategy at h
  cases hg : s.generateQuestion pop with
  | none => rw [hg] at h; exact hb q d h
  | some question =>
    rw [hg] at h
    dsimp only at h
    split at h
    · exact hb q d h
    next hkey =>
      split at h
      · exact hb q d h
      next hdeg =>
        push_neg at hdeg
        cases hb2 : best with
        | none =>
          rw [hb2] at h
          dsimp only at h
          simp only [Option.some.injEq, Prod.mk.injEq] at h
          obtain ⟨rfl, rfl⟩ := h
          exact ⟨hkey, s, hs, hg, hdeg.1, hdeg.2⟩
        | some bqd =>
          obtain ⟨bq, bd⟩ := bqd
          rw [hb2] at h
          dsimp only at h
          split at h
          · simp only [Option.some.injEq, Prod.mk.injEq] at h
            obtain ⟨rfl, rfl⟩ := h
            exact ⟨hkey, s, hs, hg, hdeg.1, hdeg.2⟩
          · simp only [Option.some.injEq, Prod.mk.injEq] at h
            obtain ⟨rfl, rfl⟩ := h
            exact hb bq bd hb2

lemma scanStrategies_good (asked : List String) (pop : List SimplePokemon) :
    ∀ (ss : List QuestionStrategy), (∀ s ∈ ss, s ∈ getQuestionStrategies) →
    ∀ (best : Option (Question × Nat)),
      (∀ q d, best = some (q, d) → SelProp pop asked q) →
    ∀ q d, scanStrategies asked pop best ss = some (q, d) → SelProp pop asked q := by
  intro ss
  induction ss with
  | nil => intro _ best hb q d h; exact hb q d h
  | cons s rest ih =>
    intro hmem best hb q d h
    exact ih (fun s' hs' => hmem s' (List.mem_cons_of_mem s hs'))
      (scanStrategy asked pop best s)
      (scanStrategy_good asked pop best s (hmem s (List.mem_cons_self s rest)) hb)
      q d h

lemma selectLoop_good (asked : List String) (pop : List SimplePokemon) :
    ∀ (fuel attempt : Nat) (used : List QType) (best : Option (Question × Nat)),
      (∀ q d, best = some (q, d) → SelProp pop asked q) →
    ∀ q d used', selectLoop asked pop fuel attempt used best = (some (q, d), used') →
      SelProp pop asked q := by
  intro fuel
  induction fuel with
  | zero =>
    intro attempt used best hb q d used' h
    unfold selectLoop at h
    exact hb q d (congrArg Prod.fst h)
  | succ n ih =>
    intro attempt used best hb q d used' h
    unfold selectLoop at h
    dsimp only at h
    set toUse := if (getQuestionStrategies.filter fun s => !used.contains s.stype).isEmpty
      then getQuestionStrategies
      else getQuestionStrategies.filter fun s => !used.contains s.stype with htu
    have hmem : ∀ s ∈ toUse, s ∈ getQuestionStrategies := by
      intro s hs
      rw [htu] at hs
      split at hs
      · exact hs
      · exact List.mem_of_mem_filter hs
    have hgood := scanStrategies_good asked pop toUse hmem best hb
    cases hbest : scanStrategies asked pop best toUse with
    | some bq =>
      obtain ⟨bq1, bd1⟩ := bq
      rw [hbest] at h
      simp only [Prod.mk.injEq, Option.some.injEq] at h
      obtain ⟨⟨rfl, rfl⟩, -⟩ := h
      exact hgood bq1 bd1 hbest
    | none =>
      rw [hbest] at h
      exact ih (attempt + 1) (if attempt = 0 then [] else used) none
        (fun q' d' hq' => Option.noConfusion hq') q d used' h

/-! ### The engine invariant

An inductive invariant of all reachable states: the history never exceeds the
20-question budget; a complete game has no pending question and guesses the
head of the remaining population; an incomplete game has a pending,
non-degenerate question, a population of at least two, and room in the
budget; and the keys of all presented questions are pairwise distinct and
recorded in the asked-question tracking. -/

lemma SelProp.nonDegen {pop : List SimplePokemon} {asked : List String} {q : Question}
    (h : SelProp pop asked q) : NonDegen pop q := by
  obtain ⟨-, s, hs, hgen, hyes, hno⟩ := h
  refine ⟨s, ?_, ?_, ?_⟩
  · rw [registry_generate_qtype s hs pop q hgen]
    exact findStrategyByType_self s hs
  · intro hnil; exact hyes (by rw [hnil]; rfl)
  · intro hnil; exact hno (by rw [hnil]; rfl)

lemma insertKey_mem_self (l : List String) (k : String) : k ∈ insertKey l k := by
  unfold insertKey
  split
  · assumption
  · simp

lemma insertKey_mem_of_mem (l : List String) (k k' : String) (h : k ∈ l) :
    k ∈ insertKey l k' := by
  unfold insertKey
  split
  · exact h
  · exact List.mem_append_left _ h

lemma inv_completeGame (e : EngineState) (hg : e.guessedPokemon = none)
    (hn : e.answers.length ≤ 20)
    (hnodup : (answersKeys e).Nodup)
    (hsub : ∀ k ∈ answersKeys e, k ∈ e.askedQuestions) :
    EngineInv (completeGame e) := by
  have hpres : presentedKeys (completeGame e) = answersKeys e := by
    simp [presentedKeys, presentedQuestions, answersKeys, completeGame]
  refine ⟨hn, ?_, ?_, ?_, ?_⟩
  · intro _
    refine ⟨rfl, ?_⟩
    show (match e.possiblePokemon with
          | [] => e.guessedPokemon
          | p :: _ => some p) = e.possiblePokemon.head?
    cases e.possiblePokemon with
    | nil => simpa using hg
    | cons p rest => rfl
  · intro hfalse; exact absurd hfalse (by simp [completeGame])
  · rw [hpres]; exact hnodup
  · rw [hpres]; exact hsub

lemma generateNext_inv (e : EngineState)
    (hc : e.gameComplete = false) (hg : e.guessedPokemon = none)
    (hn : e.answers.length ≤ 20)
    (hnodup : (answersKeys e).Nodup)
    (hsub : ∀ k ∈ answersKeys e, k ∈ e.askedQuestions) :
    EngineInv (generateNextQuestion e) := by
  unfold generateNextQuestion
  split
  · exact inv_completeGame e hg hn hnodup hsub
  next hpop =>
    split
    · exact inv_completeGame e hg hn hnodup hsub
    next hbudget =>
      split
      next q d used heq =>
        have hsel : SelProp e.possiblePokemon e.askedQuestions q :=
          selectLoop_good e.askedQuestions e.possiblePokemon 10 0 e.usedQuestionTypes none
            (fun q' d' hq' => Option.noConfusion hq') q d used heq
        have hpres : presentedKeys
            { e with
              currentQuestion := some q
              usedQuestionTypes := insertType used q.qtype
              askedQuestions := insertKey e.askedQuestions (questionKey q) } =
            answersKeys e ++ [questionKey q] := by
          simp [presentedKeys, presentedQuestions, answersKeys]
        have hkey_not_ans : questionKey q ∉ answersKeys e := fun hmem => hsel.1 (hsub _ hmem)
        refine ⟨hn, ?_, ?_, ?_, ?_⟩
        · intro htrue; exact absurd (hc ▸ htrue) (by simp)
        · intro _
          refine ⟨hg, q, rfl, ?_, ?_, hsel.nonDegen⟩
          · show e.answers.length < 20
            omega
          · show 1 < e.possiblePokemon.length
            omega
        · rw [hpres]
          simp only [List.nodup_append, List.nodup_cons, List.nodup_nil, and_true,
            List.disjoint_singleton]
          exact ⟨hnodup, by simpa using hkey_not_ans⟩
        · rw [hpres]
          intro k hk
          rcases List.mem_append.mp hk with hk | hk
          · exact insertKey_mem_of_mem _ _ _ (hsub k hk)
          · simp only [List.mem_singleton] at hk
            subst hk
            exact insertKey_mem_self _ _
      next used heq =>
        exact inv_completeGame { e with usedQuestionTypes := used } hg hn hnodup hsub

lemma engineInv_postAnswer (e : EngineState) (q : Question) (r : Resp)
    (newPop : List SimplePokemon)
    (hg : e.guessedPokemon = none) (hlt : e.answers.length < 20)
    (hnodup : (answersKeys e ++ [questionKey q]).Nodup)
    (hsub : ∀ k ∈ answersKeys e ++ [questionKey q], k ∈ e.askedQuestions) :
    EngineInv (generateNextQuestion
      { currentQuestion := some q
        answers := e.answers ++ [⟨r, q⟩]
        possiblePokemon := newPop
        gameComplete := false
        guessedPokemon := e.guessedPokemon
        usedQuestionTypes := e.usedQuestionTypes
        askedQuestions := e.askedQuestions }) := by
  refine generateNext_inv _ rfl hg ?_ ?_ ?_
  · show (e.answers ++ [(⟨r, q⟩ : AnsweredQuestion)]).length ≤ 20
    simp
    omega
  · show ((e.answers ++ [(⟨r, q⟩ : AnsweredQuestion)]).map
      (fun a => questionKey a.question)).Nodup
    rw [List.map_append]
    exact hnodup
  · intro k hk
    refine hsub k ?_
    rw [show answersKeys e ++ [questionKey q] =
      (e.answers ++ [(⟨r, q⟩ : AnsweredQuestion)]).map (fun a => questionKey a.question) from
      by simp [answersKeys]]
    exact hk

lemma engineInv_step (e : EngineState) (r : Resp) (hInv : EngineInv e) :
    EngineInv (answerQuestion e r) := by
  obtain ⟨hn, hct, hcf, hnodup, hsub⟩ := hInv
  rcases hcq : e.currentQuestion with _ | q
  · unfold answerQuestion
    rw [hcq]
    rcases e.gameComplete <;> exact (⟨hn, hct, hcf, hnodup, hsub⟩ : EngineInv e)
  · rcases hgc : e.gameComplete
    · obtain ⟨hg, q2, hq2, hlt, -, -⟩ := hcf hgc
      have hqq : q2 = q := by
        rw [hcq] at hq2
        exact (Option.some.injEq _ _ ▸ hq2).symm
      subst hqq
      have hpres : presentedKeys e = answersKeys e ++ [questionKey q2] := by
        simp [presentedKeys, presentedQuestions, answersKeys, hcq]
      have hnodup2 : (answersKeys e ++ [questionKey q2]).Nodup := hpres ▸ hnodup
      have hsub2 : ∀ k ∈ answersKeys e ++ [questionKey q2], k ∈ e.askedQuestions :=
        fun k hk => hsub k (hpres ▸ hk)
      unfold answerQuestion
      rw [hcq, hgc]
      dsimp only
      rcases r with _ | _ | _
      · cases findStrategyByType q2.qtype with
        | none =>
          dsimp only
          exact engineInv_postAnswer e q2 .yes e.possiblePokemon hg hlt hnodup2 hsub2
        | some s =>
          dsimp only
          exact engineInv_postAnswer e q2 .yes _ hg hlt hnodup2 hsub2
      · cases findStrategyByType q2.qtype with
        | none =>
          dsimp only
          exact engineInv_postAnswer e q2 .no e.possiblePokemon hg hlt hnodup2 hsub2
        | some s =>
          dsimp only
          exact engineInv_postAnswer e q2 .no _ hg hlt hnodup2 hsub2
      · dsimp only
        exact engineInv_postAnswer e q2 .unknown e.possiblePokemon hg hlt hnodup2 hsub2
    · unfold answerQuestion
      rw [hcq, hgc]
      exact (⟨hn, hct, hcf, hnodup, hsub⟩ : EngineInv e)

theorem reachable_engineInv (allPokemon : List SimplePokemon) (e : EngineState)
    (h : Reachable allPokemon e) : EngineInv e := by
  induction h with
  | start =>
    refine generateNext_inv _ rfl rfl ?_ ?_ ?_
    · simp
    · simp [answersKeys]
    · simp [answersKeys]
  | step e r hr ih => exact engineInv_step e r ih

/-! ### Auxiliary facts used by the claim theorems -/

lemma generateNext_possible (e : EngineState) :
    (generateNextQuestion e).possiblePokemon = e.possiblePokemon := by
  unfold generateNextQuestion completeGame
  repeat' split
  all_goals rfl

lemma insertAsc_length (key : SimplePokemon → Nat) (p : SimplePokemon)
    (l : List SimplePokemon) : (insertAsc key p l).length = l.length + 1 := by
  induction l with
  | nil => rfl
  | cons q rest ih =>
    unfold insertAsc
    split
    · simp [ih]
    · simp

lemma sortAsc_length (key : SimplePokemon → Nat) (l : List SimplePokemon) :
    (sortAsc key l).length = l.length := by
  induction l with
  | nil => rfl
  | cons p rest ih =>
    show (insertAsc key p (sortAsc key rest)).length = rest.length + 1
    rw [insertAsc_length, ih]

/-- A boolean-flag count is degenerate (`flagged = 0` or `unflagged = 0`)
exactly when the population does not hold both a flagged and an unflagged
entity. -/
lemma boolFlagNone (pop : List SimplePokemon) (f : SimplePokemon → Bool) :
    ((pop.filter f).length = 0 ∨ pop.length - (pop.filter f).length = 0) ↔
      ¬((∃ p ∈ pop, f p = true) ∧ ∃ p ∈ pop, f p = false) := by
  have h1 : (pop.filter f).length = 0 ↔ ¬∃ p ∈ pop, f p = true := by
    rw [List.length_eq_zero, List.filter_eq_nil_iff]
    simp
  have h2 : pop.length - (pop.filter f).length = 0 ↔ ¬∃ p ∈ pop, f p = false := by
    rw [Nat.sub_eq_zero_iff_le]
    rw [show (pop.length ≤ (pop.filter f).length) ↔ ((pop.filter f).length = pop.length) from
      ⟨fun h => Nat.le_antisymm (List.length_filter_le f pop) h, fun h => h ▸ Nat.le_refl _⟩]
    rw [List.filter_length_eq_length]
    simp
  rw [h1, h2]
  exact not_and_or.symm

lemma legendaryGenerate_none_iff (pop : List SimplePokemon) :
    legendaryGenerate pop = none ↔
      ¬((∃ p ∈ pop, p.isLegendary = true) ∧ ∃ p ∈ pop, p.isLegendary = false) := by
  rw [← boolFlagNone pop (fun p => p.isLegendary)]
  unfold legendaryGenerate
  dsimp only
  split
  next hcond => exact iff_of_true rfl hcond
  next hcond => exact iff_of_false (by simp) hcond

lemma mythicalGenerate_none_iff (pop : List SimplePokemon) :
    mythicalGenerate pop = none ↔
      ¬((∃ p ∈ pop, p.isMythical = true) ∧ ∃ p ∈ pop, p.isMythical = false) := by
  rw [← boolFlagNone pop (fun p => p.isMythical)]
  unfold mythicalGenerate
  dsimp only
  split
  next hcond => exact iff_of_true rfl hcond
  next hcond => exact iff_of_false (by simp) hcond

lemma babyGenerate_none_iff (pop : List SimplePokemon) :
    babyGenerate pop = none ↔
      ¬((∃ p ∈ pop, p.isBaby = true) ∧ ∃ p ∈ pop, p.isBaby = false) := by
  rw [← boolFlagNone pop (fun p => p.isBaby)]
  unfold babyGenerate
  dsimp only
  split
  next hcond => exact iff_of_true rfl hcond
  next hcond => exact iff_of_false (by simp) hcond

/-! ### The claim theorems -/

/-- C1: for every dataset and every sequence of `answerQuestion` calls after
`startNewGame`, the state never holds more than 20 answered questions, and
in every reachable state whose answered-question history has length 20 or
more, or whose candidate population has size at most 1, the completion flag
is true. -/
theorem C1_question_budget_and_forced_completion (allPokemon : List SimplePokemon)
    (e : EngineState) (h : Reachable allPokemon e) :
    e.answers.length ≤ 20 ∧
    ((20 ≤ e.answers.length ∨ e.possiblePokemon.length ≤ 1) → e.gameComplete = true) := by
  obtain ⟨hn, -, hcf, -, -⟩ := reachable_engineInv allPokemon e h
  refine ⟨hn, ?_⟩
  intro hcond
  by_contra hfalse
  have hgc : e.gameComplete = false := by
    rcases hb : e.gameComplete
    · rfl
    · exact absurd hb hfalse
  obtain ⟨-, q, -, hlt, hpop, -⟩ := hcf hgc
  rcases hcond with h1 | h1 <;> omega

theorem C1_question_budget_and_forced_completion_witness :
    (startNewGame ([] : List SimplePokemon)).answers.length ≤ 20 ∧
    ((20 ≤ (startNewGame ([] : List SimplePokemon)).answers.length ∨
        (startNewGame ([] : List SimplePokemon)).possiblePokemon.length ≤ 1) →
      (startNewGame ([] : List SimplePokemon)).gameComplete = true) :=
  C1_question_budget_and_forced_completion [] (startNewGame []) Reachable.start

/-- C2: with a pending current question, answering yes or no yields a
candidate population no larger than before, and answering unknown leaves the
candidate population exactly unchanged (same entities, same order). -/
theorem C2_monotonic_narrowing (e : EngineState) (q : Question)
    (h : e.currentQuestion = some q) :
    (answerQuestion e .yes).possiblePokemon.length ≤ e.possiblePokemon.length ∧
    (answerQuestion e .no).possiblePokemon.length ≤ e.possiblePokemon.length ∧
    (answerQuestion e .unknown).possiblePokemon = e.possiblePokemon := by
  rcases hgc : e.gameComplete
  · unfold answerQuestion
    rw [h, hgc]
    dsimp only
    refine ⟨?_, ?_, ?_⟩
    · rw [generateNext_possible]
      cases hfind : findStrategyByType q.qtype with
      | none => exact Nat.le_refl _
      | some s =>
        exact registry_filter_length_le s (List.mem_of_find?_eq_some hfind) _ q .yes
    · rw [generateNext_possible]
      cases hfind : findStrategyByType q.qtype with
      | none => exact Nat.le_refl _
      | some s =>
        exact registry_filter_length_le s (List.mem_of_find?_eq_some hfind) _ q .no
    · rw [generateNext_possible]
  · unfold answerQuestion
    rw [h, hgc]
    exact ⟨Nat.le_refl _, Nat.le_refl _, rfl⟩

theorem C2_monotonic_narrowing_witness :
    (answerQuestion (startNewGame [wpA, wpB]) .yes).possiblePokemon.length ≤
      (startNewGame [wpA, wpB]).possiblePokemon.length ∧
    (answerQuestion (startNewGame [wpA, wpB]) .no).possiblePokemon.length ≤
      (startNewGame [wpA, wpB]).possiblePokemon.length ∧
    (answerQuestion (startNewGame [wpA, wpB]) .unknown).possiblePokemon =
      (startNewGame [wpA, wpB]).possiblePokemon :=
  C2_monotonic_narrowing (startNewGame [wpA, wpB]) qW (by decide)

/-- C3: within one game, no two questions ever presented as the current
question share the same (strategy-type, question-text) pair, regardless of
how often the used-question-type tracking is reset. -/
theorem C3_no_repeated_question_within_game (allPokemon : List SimplePokemon)
    (e : EngineState) (h : Reachable allPokemon e) :
    ((presentedQuestions e).map (fun q => (q.qtype, q.text))).Nodup := by
  have hk := (reachable_engineInv allPokemon e h).2.2.2.1
  have heq : presentedKeys e =
      ((presentedQuestions e).map (fun q => (q.qtype, q.text))).map
        (fun p => p.1.tagName ++ ":" ++ p.2) := by
    simp [presentedKeys, questionKey, List.map_map, Function.comp]
  exact List.Nodup.of_map _ (heq ▸ hk)

theorem C3_no_repeated_question_within_game_witness :
    ((presentedQuestions (startNewGame [wpB])).map (fun q => (q.qtype, q.text))).Nodup :=
  C3_no_repeated_question_within_game [wpB] (startNewGame [wpB]) Reachable.start

/-- C4: every question presented as the current question is non-degenerate
for the candidate population at the moment it is presented: the filter of
its strategy keeps a non-empty population for a yes answer and also for a no
answer. -/
theorem C4_presented_question_nondegenerate (allPokemon : List SimplePokemon)
    (e : EngineState) (h : Reachable allPokemon e) (q : Question)
    (hq : e.currentQuestion = some q) :
    NonDegen e.possiblePokemon q := by
  obtain ⟨-, hct, hcf, -, -⟩ := reachable_engineInv allPokemon e h
  rcases hgc : e.gameComplete
  · obtain ⟨-, q2, hq2, -, -, hnd⟩ := hcf hgc
    rw [hq] at hq2
    injection hq2 with hq2
    rw [hq2]
    exact hnd
  · rw [(hct hgc).1] at hq
    exact Option.noConfusion hq

theorem C4_presented_question_nondegenerate_witness :
    NonDegen (startNewGame [wpA, wpB]).possiblePokemon qW :=
  C4_presented_question_nondegenerate [wpA, wpB] (startNewGame [wpA, wpB])
    Reachable.start qW (by decide)

/-- C5 is false as stated: on the one-entity population `[wpA]` no
informative split exists — the sole question either strategy can produce
puts the single entity entirely on one side — yet the generation strategy
still returns a question (all entities on its yes side, no side empty), and
so does the evolution strategy.  Both strategies have no null return at
all. -/
theorem C5_null_on_no_split_counterexample :
    ([wpA] : List SimplePokemon).length = 1 ∧
    generationGenerate [wpA] =
      some { text := "Is your Pokémon from Kanto?", qtype := .generation, value := some 1 } ∧
    generationFilter [wpA]
      { text := "Is your Pokémon from Kanto?", qtype := .generation, value := some 1 } .yes
      = [wpA] ∧
    generationFilter [wpA]
      { text := "Is your Pokémon from Kanto?", qtype := .generation, value := some 1 } .no
      = [] ∧
    evolutionGenerate [wpA] =
      some { text := "Can your Pokémon evolve into another Pokémon?", qtype := .evolution,
             stringValue := some "hasEvolution" } ∧
    evolutionFilter [wpA]
      { text := "Can your Pokémon evolve into another Pokémon?", qtype := .evolution,
        stringValue := some "hasEvolution" } .yes = [wpA] ∧
    evolutionFilter [wpA]
      { text := "Can your Pokémon evolve into another Pokémon?", qtype := .evolution,
        stringValue := some "hasEvolution" } .no = [] := by
  refine ⟨rfl, ?_, ?_, ?_, ?_, ?_, ?_⟩ <;> decide

/-- C5 amended: no strategy fails, but only the boolean-flag strategies
(legendary, mythical, baby) return null exactly when no informative split of
the population exists; the generation and evolution strategies always return
a question, even for a population with no informative split, and the
selection algorithm instead discards degenerate questions when choosing the
next question. -/
theorem C5_null_on_no_split_amended :
    (∀ pop : List SimplePokemon, legendaryGenerate pop = none ↔
      ¬((∃ p ∈ pop, p.isLegendary = true) ∧ ∃ p ∈ pop, p.isLegendary = false)) ∧
    (∀ pop : List SimplePokemon, mythicalGenerate pop = none ↔
      ¬((∃ p ∈ pop, p.isMythical = true) ∧ ∃ p ∈ pop, p.isMythical = false)) ∧
    (∀ pop : List SimplePokemon, babyGenerate pop = none ↔
      ¬((∃ p ∈ pop, p.isBaby = true) ∧ ∃ p ∈ pop, p.isBaby = false)) ∧
    (∀ pop : List SimplePokemon, (generationGenerate pop).isSome = true) ∧
    (∀ pop : List SimplePokemon, (evolutionGenerate pop).isSome = true) := by
  refine ⟨legendaryGenerate_none_iff, mythicalGenerate_none_iff, babyGenerate_none_iff,
    fun pop => rfl, fun pop => ?_⟩
  unfold evolutionGenerate
  dsimp only
  split <;> rfl

theorem C5_null_on_no_split_amended_witness :
    legendaryGenerate [wpA] = none ∧ (generationGenerate [wpA]).isSome = true :=
  ⟨(C5_null_on_no_split_amended.1 [wpA]).mpr (by decide),
   C5_null_on_no_split_amended.2.2.2.1 [wpA]⟩

/-- C6: whenever a reachable state is complete, the guessed entity equals
the head of the candidate population: the first entity in population order
when the population is non-empty, and unset (`none`) when the population is
empty — still an ordinary completed state of the total transition function,
not an error. -/
theorem C6_completion_guess_policy (allPokemon : List SimplePokemon) (e : EngineState)
    (h : Reachable allPokemon e) (hc : e.gameComplete = true) :
    e.guessedPokemon = e.possiblePokemon.head? :=
  ((reachable_engineInv allPokemon e h).2.1 hc).2

theorem C6_completion_guess_policy_witness :
    (startNewGame [wpA]).guessedPokemon = (startNewGame [wpA]).possiblePokemon.head? :=
  C6_completion_guess_policy [wpA] (startNewGame [wpA]) Reachable.start (by decide)

/-- C7: for populations of more than 3 entities the weight strategy
generates a question whose threshold is the weight at index `n / 2` of the
population sorted ascending by weight, and every weight question with
threshold `t` filters a yes answer to exactly the entities strictly heavier
than `t` and a no answer to exactly the entities of weight at most `t`. -/
theorem C7_weight_median_threshold_and_filter :
    (∀ pop : List SimplePokemon, 3 < pop.length →
      ∃ q, weightGenerate pop = some q ∧
        q.value = some ((sortByWeight pop).getD (pop.length / 2) default).weight) ∧
    (∀ (pop : List SimplePokemon) (q : Question) (t : Nat), q.value = some t →
      weightFilter pop q .yes = pop.filter (fun p => t < p.weight) ∧
      weightFilter pop q .no = pop.filter (fun p => p.weight ≤ t)) := by
  constructor
  · intro pop hlen
    unfold weightGenerate
    rw [if_neg (by omega), if_neg (by omega)]
    refine ⟨_, rfl, ?_⟩
    have hlen2 : (sortByWeight pop).length = pop.length := sortAsc_length _ pop
    rw [hlen2]
  · intro pop q t hv
    unfold weightFilter
    rw [hv]
    exact ⟨rfl, rfl⟩

theorem C7_weight_median_threshold_and_filter_witness :
    3 < ([wpA, wpB, wpC, wpD] : List SimplePokemon).length ∧
    (∃ q, weightGenerate [wpA, wpB, wpC, wpD] = some q ∧
      q.value = some ((sortByWeight [wpA, wpB, wpC, wpD]).getD
        (([wpA, wpB, wpC, wpD] : List SimplePokemon).length / 2) default).weight) :=
  ⟨by decide, C7_weight_median_threshold_and_filter.1 [wpA, wpB, wpC, wpD] (by decide)⟩

/-- C8 is false as stated: the snapshot returned by `getGameState` shares
its answered-question history array with the engine by reference, so pushing
an entry through the snapshot's reference changes what the engine reads
through its own reference — here from the empty history to the pushed
one. -/
theorem C8_snapshot_mutation_counterexample :
    h0 g0.answers = [] ∧
    writeHeap h0 (getGameState g0).answers (h0 (getGameState g0).answers ++ [aq0])
      g0.answers = [aq0] := by
  exact ⟨rfl, by decide⟩

/-- C8 amended: `getGameState` returns a snapshot equal by value to the
engine's state record, so two snapshots taken with no intervening operation
are equal, and replacing a top-level field of the copied record cannot touch
the engine's record; but the history and population collections are shared
by reference, so an element-level mutation performed through the snapshot's
reference is read back through the engine's own reference. -/
theorem C8_snapshot_shallow_copy_amended :
    (∀ g : GameStateRefs, getGameState g = g) ∧
    (∀ (g : GameStateRefs) (h : Nat → List AnsweredQuestion) (v : List AnsweredQuestion),
      writeHeap h (getGameState g).answers v g.answers = v) ∧
    (∀ (g : GameStateRefs) (h : Nat → List SimplePokemon) (v : List SimplePokemon),
      writeHeap h (getGameState g).possiblePokemon v g.possiblePokemon = v) := by
  refine ⟨fun g => rfl, fun g h v => ?_, fun g h v => ?_⟩
  · simp [writeHeap, getGameState]
  · simp [writeHeap, getGameState]

theorem C8_snapshot_shallow_copy_amended_witness :
    getGameState g0 = g0 ∧ writeHeap h0 (getGameState g0).answers [aq0] g0.answers = [aq0] :=
  ⟨C8_snapshot_shallow_copy_amended.1 g0,
   C8_snapshot_shallow_copy_amended.2.1 g0 h0 [aq0]⟩

/-- C9: when the game is already complete or no current question is pending,
`answerQuestion` with any response returns the state unchanged — a silent
no-op, never an error. -/
theorem C9_answer_noop_when_not_pending (e : EngineState) (r : Resp)
    (h : e.gameComplete = true ∨ e.currentQuestion = none) :
    answerQuestion e r = e := by
  unfold answerQuestion
  rcases hcq : e.currentQuestion with _ | q
  · rcases e.gameComplete <;> rfl
  · rcases h with hgc | hnone
    · rw [hgc]
    · rw [hcq] at hnone
      exact Option.noConfusion hnone

theorem C9_answer_noop_when_not_pending_witness :
    answerQuestion doneState .yes = doneState :=
  C9_answer_noop_when_not_pending doneState .yes (Or.inl rfl)

/-- C10: in every reachable state, if the completion flag is set then the
current question is null. -/
theorem C10_complete_implies_no_pending_question (allPokemon : List SimplePokemon)
    (e : EngineState) (h : Reachable allPokemon e) (hc : e.gameComplete = true) :
    e.currentQuestion = none :=
  ((reachable_engineInv allPokemon e h).2.1 hc).1

theorem C10_complete_implies_no_pending_question_witness :
    (startNewGame ([] : List SimplePokemon)).currentQuestion = none :=
  C10_complete_implies_no_pending_question [] (startNewGame []) Reachable.start (by decide)
